import Mathlib

/-!
Verification of the qdl-utils scanning/counting core against its
natural-language specification.

The Python sources are shallowly embedded: numbers are exact rationals,
mutable objects become explicit state records, methods become state
transformers, exceptions become `Except`/`Option` error values, and
generators become functions returning the list of yielded values together
with the final state.
-/

namespace QdlUtils

/-! ### Python / numpy numeric primitives -/

/-- Python builtin `int(x)` on a real-valued argument: truncation toward zero. -/
def pyInt (q : ℚ) : ℤ :=
  if 0 ≤ q then ⌊q⌋ else ⌈q⌉

/-- Python builtin `round(x)` (round half to even, returning an integer). -/
def pyRound (q : ℚ) : ℤ :=
  let f := ⌊q⌋
  let r := q - f
  if r < 1/2 then f
  else if 1/2 < r then f + 1
  else if f % 2 = 0 then f else f + 1

/-- The value grid of `numpy.arange(start, stop, step)`: the points
`start + k * step` for `0 ≤ k < ⌈(stop - start) / step⌉`. -/
def npArange (start stop step : ℚ) : List ℚ :=
  (List.range (⌈(stop - start) / step⌉.toNat)).map (fun k : ℕ => start + (k : ℚ) * step)

/-- The value grid of `numpy.linspace(start, stop, num)` with the default
inclusive endpoint. -/
def npLinspace (start stop : ℚ) (num : ℕ) : List ℚ :=
  if num ≤ 1 then List.replicate num start
  else (List.range num).map (fun k : ℕ => start + (k : ℚ) * ((stop - start) / ((num : ℚ) - 1)))

/-! ### NidaqTimedRateCounter
(`src/qdlutils/hardware/nidaq/counters/nidaqtimedratecounter.py`)

Only the pure configuration state relevant to dwell-time handling is
embedded here; the batch-reading machinery of the parent class is embedded
separately below. -/

/-- Configuration state of `NidaqTimedRateCounter`. -/
structure NidaqTimedRateCounter where
  clock_rate : ℚ
  sample_time_in_seconds : ℚ
  num_data_samples_per_batch : ℤ
  running : Bool

/-- `NidaqTimedRateCounter.__init__` (dwell-relevant part): stores the sample
time and computes `num_data_samples_per_batch = int(sample_time_in_seconds *
clock_rate)`. -/
def NidaqTimedRateCounter.init (clock_rate sample_time_in_seconds : ℚ) :
    NidaqTimedRateCounter :=
  { clock_rate := clock_rate
    sample_time_in_seconds := sample_time_in_seconds
    num_data_samples_per_batch := pyInt (sample_time_in_seconds * clock_rate)
    running := false }

/-- `NidaqTimedRateCounter.configure_sample_time`: updates the sample time and
recomputes `num_data_samples_per_batch = int(sample_time * clock_rate)`.
(The update of an already-created counter task is a hardware side effect with
the same number.) -/
def NidaqTimedRateCounter.configure_sample_time (c : NidaqTimedRateCounter)
    (sample_time : ℚ) : NidaqTimedRateCounter :=
  { c with
    sample_time_in_seconds := sample_time
    num_data_samples_per_batch := pyInt (sample_time * c.clock_rate) }

theorem pyInt_nonneg_eq_floor (q : ℚ) (h : 0 ≤ q) : pyInt q = ⌊q⌋ := by
  simp [pyInt, h]

/-! ### Generic facts about `npArange` grids whose step divides the range
into `N` equal parts. -/

theorem npArange_div_eq (start stop : ℚ) (N : ℕ) (hN : 0 < N) (h : stop ≠ start) :
    npArange start stop ((stop - start) / N) =
      (List.range N).map (fun k : ℕ => start + (k : ℚ) * ((stop - start) / N)) := by
  unfold npArange
  have hs : stop - start ≠ 0 := sub_ne_zero.mpr h
  have hN0 : (N : ℚ) ≠ 0 := Nat.cast_ne_zero.mpr hN.ne'
  have hdiv : (stop - start) / ((stop - start) / N) = (N : ℚ) := by
    field_simp
  rw [hdiv, Int.ceil_natCast, Int.toNat_natCast]

theorem npArange_div_length (start stop : ℚ) (N : ℕ) (hN : 0 < N) (h : stop ≠ start) :
    (npArange start stop ((stop - start) / N)).length = N := by
  rw [npArange_div_eq start stop N hN h]
  rw [List.length_map, List.length_range]

theorem npArange_div_getElem (start stop : ℚ) (N : ℕ) (hN : 0 < N) (h : stop ≠ start)
    (k : ℕ) (hk : k < N) :
    (npArange start stop ((stop - start) / N)).get? k =
      some (start + k * ((stop - start) / N)) := by
  rw [npArange_div_eq start stop N hN h]
  rw [List.get?_map, List.get?_range hk]
  rfl

theorem npArange_div_not_mem (start stop : ℚ) (N : ℕ) (hN : 0 < N) (h : stop ≠ start) :
    stop ∉ npArange start stop ((stop - start) / N) := by
  rw [npArange_div_eq start stop N hN h]
  intro hmem
  simp only [List.mem_map, List.mem_range] at hmem
  obtain ⟨k, hk, hke⟩ := hmem
  have hs : stop - start ≠ 0 := sub_ne_zero.mpr h
  have hN0 : (N : ℚ) ≠ 0 := Nat.cast_ne_zero.mpr hN.ne'
  have hstep : (stop - start) / N ≠ 0 := div_ne_zero hs hN0
  have hNstep : (N : ℚ) * ((stop - start) / N) = stop - start := by
    field_simp
  have : (k : ℚ) * ((stop - start) / N) = (N : ℚ) * ((stop - start) / N) := by
    rw [hNstep]
    linarith [hke]
  have hkN : (k : ℚ) = (N : ℚ) := mul_right_cancel₀ hstep this
  exact absurd (Nat.cast_injective hkN) hk.ne

/-! ### PleScanner (`src/qt3utils/datagenerators/plescanner.py`)

The scan-parameter state of `PleScanner` and its `configure_scan` method.
Python integer arguments are embedded as `ℤ` (so the `type(...) is int`
checks of the source hold by construction) and floats as `ℚ`.  The external
`wavelength_controller.check_allowed_limits` collaborator (defined in
`qt3utils.nidaq.customcontrollers`, outside the embedded sources) is passed
in as a boolean predicate; `false` stands for the validation error it
raises. -/

/-- Scan-parameter state of a `PleScanner` instance: the base parameters and
the derived grid attributes set by `configure_scan`. -/
structure PleScanner where
  min : ℚ
  max : ℚ
  n_pixels_up : ℤ
  n_pixels_down : ℤ
  n_subpixels : ℤ
  time_up : ℚ
  time_down : ℚ
  n_scans : ℤ
  time_repump : ℚ
  pixel_step_size_up : ℚ
  pixel_step_size_down : ℚ
  sample_step_size_up : ℚ
  sample_step_size_down : ℚ
  pixel_voltages_up : List ℚ
  pixel_voltages_down : List ℚ
  sample_voltages_up : List ℚ
  sample_voltages_down : List ℚ
  pixel_time_up : ℚ
  pixel_time_down : ℚ
  sample_time_up : ℚ
  sample_time_down : ℚ

/-- The assignment block at the end of `PleScanner.configure_scan`: the state
written once every validation check has passed.  Field for field this is the
sequence of `self.<attr> = ...` assignments in the source. -/
def PleScanner.configured (mn mx : ℚ) (n_pixels_up n_pixels_down n_subpixels : ℤ)
    (time_up time_down : ℚ) (n_scans : ℤ) (time_repump : ℚ) : PleScanner :=
  { min := mn
    max := mx
    n_pixels_up := n_pixels_up
    n_pixels_down := n_pixels_down
    n_subpixels := n_subpixels
    time_up := time_up
    time_down := time_down
    n_scans := n_scans
    time_repump := time_repump
    pixel_step_size_up := (mx - mn) / (n_pixels_up : ℚ)
    pixel_step_size_down := (mn - mx) / (n_pixels_down : ℚ)
    sample_step_size_up := (mx - mn) / ((n_pixels_up : ℚ) * (n_subpixels : ℚ))
    sample_step_size_down := (mn - mx) / ((n_pixels_down : ℚ) * (n_subpixels : ℚ))
    pixel_voltages_up := npArange mn mx ((mx - mn) / (n_pixels_up : ℚ))
    pixel_voltages_down := npArange mx mn ((mn - mx) / (n_pixels_down : ℚ))
    sample_voltages_up := npArange mn mx ((mx - mn) / ((n_pixels_up : ℚ) * (n_subpixels : ℚ)))
    sample_voltages_down := npArange mx mn ((mn - mx) / ((n_pixels_down : ℚ) * (n_subpixels : ℚ)))
    pixel_time_up := time_up / (n_pixels_up : ℚ)
    pixel_time_down := time_down / (n_pixels_down : ℚ)
    sample_time_up := time_up / ((n_pixels_up : ℚ) * (n_subpixels : ℚ))
    sample_time_down := time_down / ((n_pixels_down : ℚ) * (n_subpixels : ℚ)) }

/-- `PleScanner.configure_scan`: validates all inputs in source order (each
violation raises a `ValueError`, returned here as `some message` with the
mutated-so-far state), then stores the base parameters and the derived step
sizes, voltage grids and dwell times.  In the source every validation check
precedes the first assignment to `self`, so each error branch returns the
incoming state unchanged. -/
def PleScanner.configure_scan (s : PleScanner) (check_allowed_limits : ℚ → Bool)
    (mn mx : ℚ) (n_pixels_up n_pixels_down n_subpixels : ℤ)
    (time_up time_down : ℚ) (n_scans : ℤ) (time_repump : ℚ) :
    PleScanner × Option String :=
  if mx ≤ mn then
    (s, some "Requested max is less than min.")
  else if check_allowed_limits mn = false then
    (s, some "Requested min is outside of the allowed limits.")
  else if check_allowed_limits mx = false then
    (s, some "Requested max is outside of the allowed limits.")
  else if n_pixels_up < 1 then
    (s, some "Requested number of pixels up is invalid (must be at least 1).")
  else if n_pixels_down < 1 then
    (s, some "Requested number of pixels down is invalid (must be at least 1).")
  else if n_subpixels < 1 then
    (s, some "Requested number of subpixels is invalid (must be at least 1).")
  else if time_up ≤ 0 then
    (s, some "Requested upsweep time is invalid (must be above 0).")
  else if time_down ≤ 0 then
    (s, some "Requested downsweep time is invalid (must be above 0).")
  else if n_scans < 1 then
    (s, some "Requested number of scans is invalid (must be at least 1).")
  else if time_repump < 0 then
    (s, some "Requested repump time is invalid (must be non-negative).")
  else
    (PleScanner.configured mn mx n_pixels_up n_pixels_down n_subpixels
      time_up time_down n_scans time_repump, none)

set_option maxHeartbeats 1000000 in
theorem configure_scan_state_or_ok (s : PleScanner) (chk : ℚ → Bool)
    (mn mx : ℚ) (nu nd nsub : ℤ) (tu td : ℚ) (ns : ℤ) (tr : ℚ) :
    (s.configure_scan chk mn mx nu nd nsub tu td ns tr).1 = s ∨
      (s.configure_scan chk mn mx nu nd nsub tu td ns tr).2 = none := by
  unfold PleScanner.configure_scan
  split_ifs <;> first
  | exact Or.inl rfl
  | exact Or.inr rfl

/-- A `PleScanner` whose parameters have not yet been configured (all fields
at their zero values); used as a concrete pre-state. -/
def plescannerBlank : PleScanner :=
  { min := 0, max := 0, n_pixels_up := 0, n_pixels_down := 0, n_subpixels := 0
    time_up := 0, time_down := 0, n_scans := 0, time_repump := 0
    pixel_step_size_up := 0, pixel_step_size_down := 0
    sample_step_size_up := 0, sample_step_size_down := 0
    pixel_voltages_up := [], pixel_voltages_down := []
    sample_voltages_up := [], sample_voltages_down := []
    pixel_time_up := 0, pixel_time_down := 0
    sample_time_up := 0, sample_time_down := 0 }

/-- C10: if `PleScanner.configure_scan` raises a parameter-validation error
for any invalid input, every previously stored scan parameter and derived
grid attribute of the instance is left unchanged, because all validation
checks complete before the first assignment to instance state. -/
theorem ple_configure_scan_error_preserves_state (s : PleScanner) (chk : ℚ → Bool)
    (mn mx : ℚ) (nu nd nsub : ℤ) (tu td : ℚ) (ns : ℤ) (tr : ℚ) (e : String)
    (h : (s.configure_scan chk mn mx nu nd nsub tu td ns tr).2 = some e) :
    (s.configure_scan chk mn mx nu nd nsub tu td ns tr).1 = s := by
  rcases configure_scan_state_or_ok s chk mn mx nu nd nsub tu td ns tr with h1 | h2
  · exact h1
  · rw [h2] at h
    exact Option.noConfusion h

theorem ple_configure_scan_error_preserves_state_witness :
    ((plescannerBlank.configure_scan (fun _ => true) 0 (-1) 4 2 2 1 1 1 0).2 =
        some "Requested max is less than min.") ∧
      (plescannerBlank.configure_scan (fun _ => true) 0 (-1) 4 2 2 1 1 1 0).1 =
        plescannerBlank := by
  have herr : (plescannerBlank.configure_scan (fun _ => true) 0 (-1) 4 2 2 1 1 1 0).2 =
      some "Requested max is less than min." := by
    norm_num [PleScanner.configure_scan]
  exact ⟨herr,
    ple_configure_scan_error_preserves_state plescannerBlank (fun _ => true)
      0 (-1) 4 2 2 1 1 1 0 "Requested max is less than min." herr⟩

theorem configure_scan_valid_eq (s : PleScanner) (chk : ℚ → Bool)
    (mn mx : ℚ) (nu nd nsub : ℤ) (tu td : ℚ) (ns : ℤ) (tr : ℚ)
    (hrange : mn < mx) (hchkmn : chk mn = true) (hchkmx : chk mx = true)
    (hnu : 1 ≤ nu) (hnd : 1 ≤ nd) (hnsub : 1 ≤ nsub)
    (htu : 0 < tu) (htd : 0 < td) (hns : 1 ≤ ns) (htr : 0 ≤ tr) :
    s.configure_scan chk mn mx nu nd nsub tu td ns tr =
      (PleScanner.configured mn mx nu nd nsub tu td ns tr, none) := by
  unfold PleScanner.configure_scan
  rw [if_neg (not_le.mpr hrange),
    if_neg (by simp [hchkmn]),
    if_neg (by simp [hchkmx]),
    if_neg (not_lt.mpr hnu),
    if_neg (not_lt.mpr hnd),
    if_neg (not_lt.mpr hnsub),
    if_neg (not_le.mpr htu),
    if_neg (not_le.mpr htd),
    if_neg (not_lt.mpr hns),
    if_neg (not_lt.mpr htr)]

theorem int_one_le_toNat_cast (a b : ℤ) (ha : 1 ≤ a) (hb : 1 ≤ b) :
    0 < (a * b).toNat ∧ (((a * b).toNat : ℚ)) = (a : ℚ) * (b : ℚ) := by
  have hab : (0 : ℤ) < a * b :=
    mul_pos (lt_of_lt_of_le zero_lt_one ha) (lt_of_lt_of_le zero_lt_one hb)
  constructor
  · omega
  · have h1 : (((a * b).toNat : ℤ) : ℚ) = ((a * b : ℤ) : ℚ) := by
      rw [Int.toNat_of_nonneg hab.le]
    push_cast at h1
    linarith [h1]

/-- C4: for every valid sweep configuration, the up-sweep sample grid has
exactly `n_pixels_up * n_subpixels` points, evenly spaced by
`(max - min) / (n_pixels_up * n_subpixels)`, starting at `min` and never
containing `max`; symmetrically the down-sweep sample grid has exactly
`n_pixels_down * n_subpixels` points starting at `max`, spaced by
`(min - max) / (n_pixels_down * n_subpixels)`, and never containing `min`. -/
theorem ple_configure_scan_sample_grids (s : PleScanner) (chk : ℚ → Bool)
    (mn mx : ℚ) (nu nd nsub : ℤ) (tu td : ℚ) (ns : ℤ) (tr : ℚ)
    (hrange : mn < mx) (hchkmn : chk mn = true) (hchkmx : chk mx = true)
    (hnu : 1 ≤ nu) (hnd : 1 ≤ nd) (hnsub : 1 ≤ nsub)
    (htu : 0 < tu) (htd : 0 < td) (hns : 1 ≤ ns) (htr : 0 ≤ tr) :
    (s.configure_scan chk mn mx nu nd nsub tu td ns tr).2 = none ∧
    ((s.configure_scan chk mn mx nu nd nsub tu td ns tr).1.sample_voltages_up.length
        = (nu * nsub).toNat ∧
      (∀ k : ℕ, k < (nu * nsub).toNat →
        (s.configure_scan chk mn mx nu nd nsub tu td ns tr).1.sample_voltages_up.get? k
          = some (mn + (k : ℚ) * ((mx - mn) / ((nu : ℚ) * (nsub : ℚ))))) ∧
      (s.configure_scan chk mn mx nu nd nsub tu td ns tr).1.sample_voltages_up.get? 0
          = some mn ∧
      mx ∉ (s.configure_scan chk mn mx nu nd nsub tu td ns tr).1.sample_voltages_up) ∧
    ((s.configure_scan chk mn mx nu nd nsub tu td ns tr).1.sample_voltages_down.length
        = (nd * nsub).toNat ∧
      (∀ k : ℕ, k < (nd * nsub).toNat →
        (s.configure_scan chk mn mx nu nd nsub tu td ns tr).1.sample_voltages_down.get? k
          = some (mx + (k : ℚ) * ((mn - mx) / ((nd : ℚ) * (nsub : ℚ))))) ∧
      (s.configure_scan chk mn mx nu nd nsub tu td ns tr).1.sample_voltages_down.get? 0
          = some mx ∧
      mn ∉ (s.configure_scan chk mn mx nu nd nsub tu td ns tr).1.sample_voltages_down) := by
  have hres := configure_scan_valid_eq s chk mn mx nu nd nsub tu td ns tr
    hrange hchkmn hchkmx hnu hnd hnsub htu htd hns htr
  rw [hres]
  obtain ⟨hNu, hNucast⟩ := int_one_le_toNat_cast nu nsub hnu hnsub
  obtain ⟨hNd, hNdcast⟩ := int_one_le_toNat_cast nd nsub hnd hnsub
  have hup : (mx - mn) / ((nu : ℚ) * (nsub : ℚ)) =
      (mx - mn) / (((nu * nsub).toNat : ℚ)) := by rw [hNucast]
  have hdown : (mn - mx) / ((nd : ℚ) * (nsub : ℚ)) =
      (mn - mx) / (((nd * nsub).toNat : ℚ)) := by rw [hNdcast]
  have hmxne : mx ≠ mn := (ne_of_gt hrange)
  have hmnne : mn ≠ mx := (ne_of_lt hrange)
  refine ⟨rfl, ⟨?_, ?_, ?_, ?_⟩, ⟨?_, ?_, ?_, ?_⟩⟩
  · show (npArange mn mx ((mx - mn) / ((nu : ℚ) * (nsub : ℚ)))).length = _
    rw [hup]
    exact npArange_div_length mn mx _ hNu hmxne
  · intro k hk
    show (npArange mn mx ((mx - mn) / ((nu : ℚ) * (nsub : ℚ)))).get? k = _
    rw [hup]
    rw [npArange_div_getElem mn mx _ hNu hmxne k hk]
  · show (npArange mn mx ((mx - mn) / ((nu : ℚ) * (nsub : ℚ)))).get? 0 = _
    rw [hup, npArange_div_getElem mn mx _ hNu hmxne 0 hNu]
    norm_num
  · show mx ∉ npArange mn mx ((mx - mn) / ((nu : ℚ) * (nsub : ℚ)))
    rw [hup]
    exact npArange_div_not_mem mn mx _ hNu hmxne
  · show (npArange mx mn ((mn - mx) / ((nd : ℚ) * (nsub : ℚ)))).length = _
    rw [hdown]
    exact npArange_div_length mx mn _ hNd hmnne
  · intro k hk
    show (npArange mx mn ((mn - mx) / ((nd : ℚ) * (nsub : ℚ)))).get? k = _
    rw [hdown]
    rw [npArange_div_getElem mx mn _ hNd hmnne k hk]
  · show (npArange mx mn ((mn - mx) / ((nd : ℚ) * (nsub : ℚ)))).get? 0 = _
    rw [hdown, npArange_div_getElem mx mn _ hNd hmnne 0 hNd]
    norm_num
  · show mn ∉ npArange mx mn ((mn - mx) / ((nd : ℚ) * (nsub : ℚ)))
    rw [hdown]
    exact npArange_div_not_mem mx mn _ hNd hmnne

theorem ple_configure_scan_sample_grids_witness :
    ((0 : ℚ) < 1 ∧ (1 : ℤ) ≤ 4) ∧
    (plescannerBlank.configure_scan (fun _ => true) 0 1 4 2 2 1 1 1 0).1.sample_voltages_up.length = 8 ∧
    (plescannerBlank.configure_scan (fun _ => true) 0 1 4 2 2 1 1 1 0).1.sample_voltages_down.length = 4 := by
  have h := ple_configure_scan_sample_grids plescannerBlank (fun _ => true) 0 1 4 2 2 1 1 1 0
    (by norm_num) rfl rfl (by norm_num) (by norm_num) (by norm_num)
    (by norm_num) (by norm_num) (by norm_num) le_rfl
  refine ⟨⟨by norm_num, by norm_num⟩, ?_, ?_⟩
  · have hl := h.2.1.1
    norm_num at hl
    exact hl
  · have hl := h.2.2.1
    norm_num at hl
    exact hl

/-! ### Claim C6: dwell-time configuration of the timed counter -/

/-- C6 counterexample: with clock rate 1000 and dwell time 19/10000 seconds
(product 1.9), `configure_sample_time` stores 1 cycle per batch, whereas the
claimed `round(dwell_seconds * clock_rate)` is 2; so the claim fails as
stated. -/
theorem nidaq_configure_sample_time_not_round :
    ¬ (((NidaqTimedRateCounter.init 1000 1).configure_sample_time
          (19/10000)).num_data_samples_per_batch = pyRound ((19/10000) * 1000)) := by
  have h1 : ((NidaqTimedRateCounter.init 1000 1).configure_sample_time
      (19/10000)).num_data_samples_per_batch = 1 := by
    norm_num [NidaqTimedRateCounter.init, NidaqTimedRateCounter.configure_sample_time, pyInt]
  have h2 : pyRound ((19/10000 : ℚ) * 1000) = 2 := by
    norm_num [pyRound]
  rw [h1, h2]
  norm_num

/-- C6 (amended): configuring the dwell (`configure_sample_time`, and the
constructor of the timed counter) sets the number of hardware clock cycles
per batch to `int(dwell_seconds * clock_rate)`, i.e. the product truncated
toward zero — for the nonnegative products of normal operation, its floor —
not `round(...)`. -/
theorem nidaq_dwell_sets_truncated_cycles (c : NidaqTimedRateCounter)
    (t rate t0 : ℚ) (h : 0 ≤ t * c.clock_rate) (h0 : 0 ≤ t0 * rate) :
    (c.configure_sample_time t).num_data_samples_per_batch = ⌊t * c.clock_rate⌋ ∧
    (NidaqTimedRateCounter.init rate t0).num_data_samples_per_batch = ⌊t0 * rate⌋ :=
  ⟨pyInt_nonneg_eq_floor _ h, pyInt_nonneg_eq_floor _ h0⟩

theorem nidaq_dwell_sets_truncated_cycles_witness :
    ((0 : ℚ) ≤ (19/10000) * (NidaqTimedRateCounter.init 1000 1).clock_rate ∧
      (0 : ℚ) ≤ 1 * 1000) ∧
    ((NidaqTimedRateCounter.init 1000 1).configure_sample_time
        (19/10000)).num_data_samples_per_batch =
      ⌊(19/10000 : ℚ) * (NidaqTimedRateCounter.init 1000 1).clock_rate⌋ := by
  have h1 : (0 : ℚ) ≤ (19/10000) * (NidaqTimedRateCounter.init 1000 1).clock_rate := by
    norm_num [NidaqTimedRateCounter.init]
  have h0 : (0 : ℚ) ≤ 1 * 1000 := by norm_num
  exact ⟨⟨h1, h0⟩,
    (nidaq_dwell_sets_truncated_cycles (NidaqTimedRateCounter.init 1000 1)
      (19/10000) 1000 1 h1 h0).1⟩

/-! ### NidaqBatchedRateCounter
(`src/qdlutils/hardware/nidaq/counters/nidaqbatchedratecounter.py`)

A device batch read (`_read_samples`) yields a buffer of per-clock-cycle
counts together with `samples_read`, the number of cycles actually read.
The buffer is initialized to zeros and `read_many_sample_double` writes
exactly `samples_read` values into it, so a read is embedded as the list of
written values, whose length is `samples_read`; the trailing zeros of the
buffer contribute nothing to any sum taken over it.  A sequence of reads is
an input function `reads : ℕ → List ℚ` giving the values of the i-th read.

`numpy` float64 arithmetic emits a warning — not an exception — on division
by zero, producing nan (0/0) or a signed infinity; `NpFloat` embeds this. -/

/-- Result of a `numpy` float64 computation: a finite value, nan, or a
signed infinity. -/
inductive NpFloat
  | num (q : ℚ)
  | nan
  | inf
  | ninf
  deriving DecidableEq

/-- Division of `numpy` float64 scalars: division by zero yields nan for a
zero numerator and a signed infinity otherwise (with a runtime warning); it
never raises. -/
def npDiv (a b : ℚ) : NpFloat :=
  if b = 0 then
    if a = 0 then NpFloat.nan else if 0 < a then NpFloat.inf else NpFloat.ninf
  else NpFloat.num (a / b)

namespace NidaqBatchedRateCounter

/-- `sample_nbatches_raw(n_batches, sum_counts)`: reads `n_batches` batches;
row i is `(sum of the first samples_read values of read i, samples_read)`
(the sum is written only when `samples_read > 0`, and the buffer entry stays
at its initial 0 otherwise — the same value, since a sum over zero values is
0).  With `sum_counts` true the rows are summed along axis 0 keeping the
dimension, giving a single `(total counts, total cycles)` row. -/
def sample_nbatches_raw (reads : ℕ → List ℚ) (n_batches : ℕ) (sum_counts : Bool) :
    List (ℚ × ℚ) :=
  let data := (List.range n_batches).map
    (fun i : ℕ => ((reads i).sum, ((reads i).length : ℚ)))
  if sum_counts then [((data.map Prod.fst).sum, (data.map Prod.snd).sum)]
  else data

/-- CPython argument binding for a call to the bound method
`sample_nbatches_raw(self, n_batches=1, sum_counts=True)`: given the number
of extra positional arguments (after the implicit instance) and the keyword
names supplied, CPython raises a `TypeError` when a parameter receives both
a positional and a keyword value. -/
def bindRawCall (n_extra_positional : ℕ) (keywords : List String) : Except String Unit :=
  let params := ["n_batches", "sum_counts"]
  if params.length < n_extra_positional then
    Except.error "TypeError: sample_nbatches_raw takes at most 3 arguments"
  else if keywords.any (fun k => (params.take n_extra_positional).contains k) then
    Except.error "TypeError: sample_nbatches_raw got multiple values for argument n_batches"
  else Except.ok ()

/-- `sample_nbatches_counts(n_batches, sum_counts)`: the source line is
`output = self.sample_nbatches_raw(self, n_batches=n_batches,
sum_counts=sum_counts)` — the instance is passed again as an extra
positional argument, so the call binds `n_batches` twice; only if that
binding succeeded would the counts column `output[:,0]` be returned. -/
def sample_nbatches_counts (reads : ℕ → List ℚ) (n_batches : ℕ) (sum_counts : Bool) :
    Except String (List ℚ) :=
  match bindRawCall 1 ["n_batches", "sum_counts"] with
  | Except.error e => Except.error e
  | Except.ok _ =>
      Except.ok ((sample_nbatches_raw reads n_batches sum_counts).map Prod.fst)

/-- Result of `sample_nbatches_time` when it returns: the stopped-counter
early return `(np.zeros(1), 0)`, or the data rows `(counts, seconds)`. -/
inductive NbatchesTimeResult
  | notRunning
  | rows (data : List (ℚ × ℚ))
  deriving DecidableEq

/-- `sample_nbatches_time(n_batches, sum_counts)`: returns `(np.zeros(1), 0)`
when the counter is not running; otherwise it makes the same
`self.sample_nbatches_raw(self, ...)` call as `sample_nbatches_counts`
(binding `n_batches` twice), and only on success would it rescale column 1
by `1 / clock_rate`. -/
def sample_nbatches_time (running : Bool) (clock_rate : ℚ) (reads : ℕ → List ℚ)
    (n_batches : ℕ) (sum_counts : Bool) : Except String NbatchesTimeResult :=
  if running = false then Except.ok NbatchesTimeResult.notRunning
  else
    match bindRawCall 1 ["n_batches", "sum_counts"] with
    | Except.error e => Except.error e
    | Except.ok _ =>
        Except.ok (NbatchesTimeResult.rows
          ((sample_nbatches_raw reads n_batches sum_counts).map
            (fun r => (r.1, r.2 / clock_rate))))

/-- Result of `sample_batch_rate` when it returns: the stopped-counter early
return `(np.zeros(1), 0)`, or the computed rate. -/
inductive BatchRateResult
  | notRunning
  | rate (x : NpFloat)
  deriving DecidableEq

/-- `sample_batch_rate()`: returns `(np.zeros(1), 0)` when the counter is not
running; otherwise reads one batch and returns
`np.sum(data_sample) * clock_rate / samples_read` in float64 arithmetic
(the sum runs over the whole buffer, whose entries beyond `samples_read`
are zeros). -/
def sample_batch_rate (running : Bool) (clock_rate : ℚ) (read_values : List ℚ) :
    BatchRateResult :=
  if running = false then BatchRateResult.notRunning
  else BatchRateResult.rate (npDiv (read_values.sum * clock_rate) ((read_values.length : ℚ)))

end NidaqBatchedRateCounter

/-- C2: the claim states that for every n ≥ 1 the aggregated views
`sample_nbatches_counts(n, sum_counts=True)` and
`sample_nbatches_time(n, sum_counts=True)` return `sum(c_i)` and
`(sum(c_i), sum(k_i)/clock_rate)` without raising.  In the code both calls
pass the instance to `sample_nbatches_raw` an extra time and raise a
`TypeError` (duplicate value for `n_batches`) for every input, before any
aggregation happens; this theorem evaluates both methods. -/
theorem nidaq_sample_nbatches_views_raise (reads : ℕ → List ℚ) (n : ℕ) (s : Bool)
    (rate : ℚ) :
    NidaqBatchedRateCounter.sample_nbatches_counts reads n s =
      Except.error "TypeError: sample_nbatches_raw got multiple values for argument n_batches" ∧
    NidaqBatchedRateCounter.sample_nbatches_time true rate reads n s =
      Except.error "TypeError: sample_nbatches_raw got multiple values for argument n_batches" :=
  ⟨rfl, rfl⟩

/-- C7: a single-batch read in which the hardware reports
`cycles_read == 0` (so the zero-initialized buffer holds no written values)
makes `sample_batch_rate` return the float64 value nan — 0 * clock_rate / 0 —
and the division never raises. -/
theorem nidaq_sample_batch_rate_zero_cycles_nan (clock_rate : ℚ)
    (read_values : List ℚ) (h : read_values.length = 0) :
    NidaqBatchedRateCounter.sample_batch_rate true clock_rate read_values =
      NidaqBatchedRateCounter.BatchRateResult.rate NpFloat.nan := by
  rw [List.length_eq_zero] at h
  subst h
  simp [NidaqBatchedRateCounter.sample_batch_rate, npDiv]

theorem nidaq_sample_batch_rate_zero_cycles_nan_witness :
    ([] : List ℚ).length = 0 ∧
    NidaqBatchedRateCounter.sample_batch_rate true 1000000 ([] : List ℚ) =
      NidaqBatchedRateCounter.BatchRateResult.rate NpFloat.nan :=
  ⟨rfl, nidaq_sample_batch_rate_zero_cycles_nan 1000000 [] rfl⟩

/-! ### ScopeController and its host application
(`src/qdlutils/applications/qdlscope/application_controller.py` and
`src/qdlutils/applications/qdlscope/main.py`) -/

/-- `ScopeController.read_counts_continuous(sample_time, get_rate)`: sets the
running flag, configures the counter dwell, computes the scale factor
(`1 / sample_time` when `get_rate` else `1`) once up front, starts the
counter, and then yields `sample_batch_counts() / scale` while running.  The
external stop clears the running flag after some number of samples, so the
generator is embedded as the list of values yielded over `n_iter`
iterations, with `counts i` the i-th batch count read. -/
def ScopeController.read_counts_continuous (sample_time : ℚ) (get_rate : Bool)
    (counts : ℕ → ℚ) (n_iter : ℕ) : List ℚ :=
  let scale := if get_rate then 1 / sample_time else 1
  (List.range n_iter).map (fun i : ℕ => counts i / scale)

/-- What a call to `ScopeApplication.start_continuous_sampling` does: whether
an error is raised to the caller, and whether the counter dwell gets
configured, the counter started, and a sampling stream begun. -/
structure ScopeStartResult where
  error : Option String
  dwell_configured : Bool
  counter_started : Bool
  stream_started : Bool
  deriving DecidableEq

/-- `ScopeApplication.start_continuous_sampling`: when the controller's
running flag is set, the callback returns `None` immediately ("Catch if
already running") — no error, no action.  Otherwise it launches the sampling
thread, whose iteration of `ScopeController.read_counts_continuous`
configures the dwell, starts the counter and produces the stream.
(Button/figure updates are GUI-only side effects and are not modelled.) -/
def ScopeApplication.start_continuous_sampling (running : Bool) : ScopeStartResult :=
  if running then
    { error := none, dwell_configured := false, counter_started := false,
      stream_started := false }
  else
    { error := none, dwell_configured := true, counter_started := true,
      stream_started := true }

/-- C8 counterexample: with the sampler already running, a start request does
not fail with an "already running" error — it returns with no error at all
(and takes no action), so the claim fails as stated. -/
theorem qdlscope_start_while_running_no_error :
    ScopeApplication.start_continuous_sampling true =
      { error := none, dwell_configured := false, counter_started := false,
        stream_started := false } := rfl

/-- C8 (amended): a continuous-sampling start requested while the sampler is
already running is silently ignored — the callback returns immediately with
no error, and no dwell reconfiguration, counter start, or second sample
stream begins. -/
theorem qdlscope_start_while_running_ignored (running : Bool) (h : running = true) :
    (ScopeApplication.start_continuous_sampling running).error = none ∧
    (ScopeApplication.start_continuous_sampling running).dwell_configured = false ∧
    (ScopeApplication.start_continuous_sampling running).counter_started = false ∧
    (ScopeApplication.start_continuous_sampling running).stream_started = false := by
  subst h
  exact ⟨rfl, rfl, rfl, rfl⟩

theorem qdlscope_start_while_running_ignored_witness :
    true = true ∧ (ScopeApplication.start_continuous_sampling true).error = none :=
  ⟨rfl, (qdlscope_start_while_running_ignored true rfl).1⟩

/-- C9: every sample yielded by `read_counts_continuous(sample_time,
get_rate)` equals the raw batch counts when `get_rate` is false, and the
batch counts divided by the precomputed `scale = 1 / sample_time` — that is,
counts multiplied by `sample_time`, not divided by it — when `get_rate` is
true. -/
theorem qdlscope_continuous_yield_scaling (sample_time : ℚ) (get_rate : Bool)
    (counts : ℕ → ℚ) (n_iter i : ℕ) (hnz : sample_time ≠ 0) (hi : i < n_iter) :
    (ScopeController.read_counts_continuous sample_time get_rate counts n_iter).get? i =
      some (if get_rate then counts i * sample_time else counts i) := by
  cases get_rate with
  | false =>
      unfold ScopeController.read_counts_continuous
      rw [List.get?_map, List.get?_range hi]
      show some (counts i / 1) = _
      rw [div_one]
      rfl
  | true =>
      unfold ScopeController.read_counts_continuous
      rw [List.get?_map, List.get?_range hi]
      show some (counts i / (1 / sample_time)) = _
      rw [div_div_eq_mul_div, div_one]
      rfl

theorem qdlscope_continuous_yield_scaling_witness :
    ((1 : ℚ)/100 ≠ 0 ∧ 0 < 1) ∧
    (ScopeController.read_counts_continuous (1/100) true (fun _ => 500) 1).get? 0 =
      some (500 * (1/100)) := by
  refine ⟨⟨by norm_num, by norm_num⟩, ?_⟩
  have h := qdlscope_continuous_yield_scaling (1/100) true (fun _ => 500) 1 0
    (by norm_num) (by norm_num)
  simpa using h

/-! ### ScanController (`src/qdlutils/applications/qdlscan/application_controller.py`)

The controller coordinates three axis position controllers and one timed
rate counter.  Its observable state is embedded as a record: the `busy` /
`scanning` / `stop_scan` flags the source keeps on the instance, plus the
interaction history with the hardware that the claims speak about — whether
the counter task is running, how many times `counter_controller.start()` and
`.stop()` were invoked, the configured counter sample time, how many batch
reads were consumed, and the list of move commands issued to the axis
hardware.  The counter batch values are an input stream `counts : ℕ → ℚ`. -/

/-- Bounds of one axis position controller. -/
structure AxisConfig where
  min : ℚ
  max : ℚ

/-- Modelled from the spec: `NidaqPositionController.go_to_position` (module
`qdlutils.hardware.nidaq.analogoutputs.nidaqposition`, which is not among
the embedded sources).  Per the spec, an axis move validates the commanded
position against the configured axis bounds and raises a validation error
before any hardware action; otherwise the move command is issued (the
spec-level `move_to`) and the last-commanded value updated.  The returned
value is the commanded position of the issued move. -/
def AxisConfig.go_to_position (ax : AxisConfig) (position : ℚ) : Except String ℚ :=
  if position < ax.min ∨ ax.max < position then
    Except.error "ValueError: requested position is out of range"
  else Except.ok position

/-- Observable state of a `ScanController` together with its counter and the
moves issued to its axis controllers. -/
structure ScanController where
  busy : Bool
  scanning : Bool
  stop_scan : Bool
  counter_running : Bool
  counter_start_calls : ℕ
  counter_stop_calls : ℕ
  sample_time : ℚ
  reads_done : ℕ
  moves : List (String × ℚ)
  deriving DecidableEq

/-- The hardware environment of a `ScanController`: the bounds of the three
axis controllers and the stream of counter batch values (the i-th batch read
returns `counts i`). -/
structure ScanEnv where
  x_axis : AxisConfig
  y_axis : AxisConfig
  z_axis : AxisConfig
  counts : ℕ → ℚ

/-- The axis-controller lookup at the top of `set_axis` / `scan_axis` /
`scan_image`: the string must be one of x, y, z, otherwise a `ValueError`
is raised. -/
def ScanEnv.axisConfig (env : ScanEnv) (axis : String) : Option AxisConfig :=
  if axis = "x" then some env.x_axis
  else if axis = "y" then some env.y_axis
  else if axis = "z" then some env.z_axis
  else none

/-- `ScanController._set_axis`: delegates to the axis controller's
`go_to_position`; on success the move is recorded, on failure the error
propagates to the caller of `_set_axis`. -/
def ScanController.set_axis_internal (st : ScanController) (axis : String)
    (ax : AxisConfig) (position : ℚ) : Except String ScanController :=
  match ax.go_to_position position with
  | Except.error e => Except.error e
  | Except.ok p => Except.ok { st with moves := st.moves ++ [(axis, p)] }

/-- `NidaqTimedRateCounter.start()` as invoked through
`self.counter_controller.start()`: if the counter task is already running it
is stopped first, then the task is configured and started. -/
def ScanController.counter_start (st : ScanController) : ScanController :=
  let st1 := if st.counter_running then
    { st with counter_running := false, counter_stop_calls := st.counter_stop_calls + 1 }
  else st
  { st1 with counter_running := true, counter_start_calls := st1.counter_start_calls + 1 }

/-- `NidaqTimedRateCounter.stop()` as invoked through
`self.counter_controller.stop()`: waits out any read in flight, closes the
tasks, and marks the counter not running. -/
def ScanController.counter_stop (st : ScanController) : ScanController :=
  { st with counter_running := false, counter_stop_calls := st.counter_stop_calls + 1 }

/-- `ScanController.stop`: clears `scanning`, stops the counter task, frees
the controller (`busy := false`) and resets the stop request flag. -/
def ScanController.stop (st : ScanController) : ScanController :=
  let st1 := { st with scanning := false }
  let st2 := st1.counter_stop
  { st2 with busy := false, stop_scan := false }

/-- `NidaqTimedRateCounter.sample_batch_counts()` as invoked from the scan
loop: returns zero when the counter is not running, otherwise consumes the
next batch of the stream. -/
def ScanController.sample_batch_counts (env : ScanEnv) (st : ScanController) :
    ScanController × ℚ :=
  if st.counter_running = false then (st, 0)
  else ({ st with reads_done := st.reads_done + 1 }, env.counts st.reads_done)

/-- `ScanController.set_axis`: fails with a busy error if the controller is
in use; otherwise reserves the controller, resolves the axis name (an
invalid name raises a `ValueError` that propagates while `busy` is still
true), then moves inside a try/except that logs and swallows any movement
failure, and finally frees the controller. -/
def ScanController.set_axis (env : ScanEnv) (st : ScanController) (axis : String)
    (position : ℚ) : ScanController × Option String :=
  if st.busy then (st, some "Application controller is currently in use.")
  else
    let st1 := { st with busy := true }
    match env.axisConfig axis with
    | none => (st1, some "Requested axis is invalid.")
    | some ax =>
        let st2 := match st1.set_axis_internal axis ax position with
          | Except.error _ => st1
          | Except.ok s => s
        ({ st2 with busy := false }, none)

/-- The per-pixel loop of `ScanController._scan_axis`: move to each position,
then read one batch of counts into the buffer.  A movement failure raises
and propagates with whatever state had accumulated. -/
def ScanController.scan_loop (env : ScanEnv) (axis : String) (ax : AxisConfig) :
    ScanController → List ℚ → ScanController × Except String (List ℚ)
  | st, [] => (st, Except.ok [])
  | st, p :: rest =>
      match st.set_axis_internal axis ax p with
      | Except.error e => (st, Except.error e)
      | Except.ok st1 =>
          let st2 := (ScanController.sample_batch_counts env st1).1
          let c := (ScanController.sample_batch_counts env st1).2
          match ScanController.scan_loop env axis ax st2 rest with
          | (st3, Except.error e) => (st3, Except.error e)
          | (st3, Except.ok out) => (st3, Except.ok (c :: out))

/-- `ScanController._scan_axis`: sets the `scanning` flag, configures the
counter sample time to `scan_time / n_pixels`, iterates over the
`numpy.linspace(start, stop, n_pixels)` positions moving and sampling, and
clears the `scanning` flag on normal completion.  A device error in the
loop propagates without clearing `scanning`. -/
def ScanController.scan_axis_internal (env : ScanEnv) (st : ScanController)
    (axis : String) (ax : AxisConfig) (start stop : ℚ) (n_pixels : ℕ)
    (scan_time : ℚ) : ScanController × Except String (List ℚ) :=
  let st1 := { st with scanning := true, sample_time := scan_time / (n_pixels : ℚ) }
  let positions := npLinspace start stop n_pixels
  match ScanController.scan_loop env axis ax st1 positions with
  | (st2, Except.error e) => (st2, Except.error e)
  | (st2, Except.ok out) => ({ st2 with scanning := false }, Except.ok out)

/-- `ScanController.scan_axis`: fails with a busy error if the controller is
in use; otherwise reserves the controller, starts the counter, resolves the
axis name (an invalid name raises a `ValueError` that propagates while
`busy` is still true and the counter keeps running), runs the internal scan
(whose device errors also propagate without cleanup), and on success calls
`self.stop()` before returning the data. -/
def ScanController.scan_axis (env : ScanEnv) (st : ScanController) (axis : String)
    (start stop : ℚ) (n_pixels : ℕ) (scan_time : ℚ) :
    ScanController × Except String (List ℚ) :=
  if st.busy then (st, Except.error "Application controller is currently in use.")
  else
    let st1 := { st with busy := true }
    let st2 := st1.counter_start
    match env.axisConfig axis with
    | none => (st2, Except.error "Requested axis is invalid.")
    | some ax =>
        match ScanController.scan_axis_internal env st2 axis ax start stop n_pixels scan_time with
        | (st3, Except.error e) => (st3, Except.error e)
        | (st3, Except.ok data) => (st3.stop, Except.ok data)

/-- The row loop of the `ScanController.scan_image` generator: for each slow
axis position, move axis 2, let it settle, scan a row along axis 1, yield
the row, then check the externally set `stop_scan` flag (`stop_flag idx` is
its value observed after the row at index `idx` was yielded); if set, call
`self.stop()` and end the sequence.  Errors propagate after the rows already
yielded were delivered. -/
def ScanController.image_loop (env : ScanEnv) (axis_1 : String) (ax1 : AxisConfig)
    (start_1 stop_1 : ℚ) (n_pixels_1 : ℕ) (scan_time : ℚ) (axis_2 : String)
    (ax2 : AxisConfig) (stop_flag : ℕ → Bool) :
    ScanController → ℕ → List ℚ → ScanController × List (List ℚ) × Option String
  | st, _, [] => (st.stop, [], none)
  | st, idx, p :: rest =>
      match st.set_axis_internal axis_2 ax2 p with
      | Except.error e => (st, [], some e)
      | Except.ok st1 =>
          match ScanController.scan_axis_internal env st1 axis_1 ax1 start_1 stop_1
              n_pixels_1 scan_time with
          | (st2, Except.error e) => (st2, [], some e)
          | (st2, Except.ok row) =>
              let st3 := { st2 with stop_scan := stop_flag idx }
              if st3.stop_scan then (st3.stop, [row], none)
              else
                match ScanController.image_loop env axis_1 ax1 start_1 stop_1 n_pixels_1
                    scan_time axis_2 ax2 stop_flag st3 (idx + 1) rest with
                | (st4, rows, err) => (st4, row :: rows, err)

/-- `ScanController.scan_image`: the generator, embedded as the full
iteration — the rows delivered to the consumer, the final state, and the
error (if any) raised during iteration.  It guards on `busy`, reserves the
controller, resolves both axis names, starts the counter and iterates the
rows over `numpy.linspace(start_2, stop_2, n_pixels_2)`. -/
def ScanController.scan_image (env : ScanEnv) (st : ScanController)
    (axis_1 : String) (start_1 stop_1 : ℚ) (n_pixels_1 : ℕ)
    (axis_2 : String) (start_2 stop_2 : ℚ) (n_pixels_2 : ℕ)
    (scan_time : ℚ) (stop_flag : ℕ → Bool) :
    ScanController × List (List ℚ) × Option String :=
  if st.busy then (st, [], some "Application controller is currently in use.")
  else
    let st1 := { st with busy := true }
    match env.axisConfig axis_1 with
    | none => (st1, [], some "Requested axis_1 is invalid.")
    | some ax1 =>
        match env.axisConfig axis_2 with
        | none => (st1, [], some "Requested axis_2 is invalid.")
        | some ax2 =>
            let st2 := st1.counter_start
            ScanController.image_loop env axis_1 ax1 start_1 stop_1 n_pixels_1 scan_time
              axis_2 ax2 stop_flag st2 0 (npLinspace start_2 stop_2 n_pixels_2)

/-- Axis bounds and counter stream used for concrete runs: every axis is
bounded by [-40, 40] and every batch read returns 0 counts. -/
def scanEnvDemo : ScanEnv :=
  { x_axis := { min := -40, max := 40 }
    y_axis := { min := -40, max := 40 }
    z_axis := { min := -40, max := 40 }
    counts := fun _ => 0 }

/-- An idle `ScanController` as produced by initialization (flags clear, no
hardware interaction recorded yet). -/
def scanControllerIdle : ScanController :=
  { busy := false, scanning := false, stop_scan := false
    counter_running := false, counter_start_calls := 0, counter_stop_calls := 0
    sample_time := 0, reads_done := 0, moves := [] }

/-- C1: the claim states that if `set_axis` / `scan_axis` / `scan_image`
raises after setting `busy`, then `busy` has been reset and the counter
stopped by the time the error reaches the caller.  In the code an invalid
axis name in `set_axis` raises `ValueError` with `busy` left true, and in
`scan_axis` an out-of-bounds move during the scan loop raises with `busy`
left true and the counter still running (its `stop()` never invoked); this
theorem evaluates the code at those failing inputs. -/
theorem qdlscan_error_exit_leaves_busy :
    ((ScanController.set_axis scanEnvDemo scanControllerIdle "a" 0).2 =
        some "Requested axis is invalid." ∧
      (ScanController.set_axis scanEnvDemo scanControllerIdle "a" 0).1.busy = true) ∧
    ((ScanController.scan_axis scanEnvDemo scanControllerIdle "x" 1000 2000 1 5).2 =
        Except.error "ValueError: requested position is out of range" ∧
      (ScanController.scan_axis scanEnvDemo scanControllerIdle "x" 1000 2000 1 5).1.busy = true ∧
      (ScanController.scan_axis scanEnvDemo scanControllerIdle "x" 1000 2000 1 5).1.counter_running = true ∧
      (ScanController.scan_axis scanEnvDemo scanControllerIdle "x" 1000 2000 1 5).1.counter_stop_calls = 0) :=
  ⟨⟨rfl, rfl⟩, rfl, rfl, rfl, rfl⟩

/-- C3 counterexample: requesting `set_axis` on the x axis (bounds [-40, 40])
at position 1000 while idle does not raise any error to the caller — the
axis controller's `ValueError` is caught and logged inside `set_axis` and
the call returns normally (the move is indeed never issued); so the claim
fails as stated. -/
theorem qdlscan_set_axis_out_of_bounds_no_error :
    (ScanController.set_axis scanEnvDemo scanControllerIdle "x" 1000).2 = none ∧
    (ScanController.set_axis scanEnvDemo scanControllerIdle "x" 1000).1.moves = [] ∧
    (ScanController.set_axis scanEnvDemo scanControllerIdle "x" 1000).1.busy = false :=
  ⟨rfl, rfl, rfl⟩

/-- C3 (amended): requesting `set_axis` while idle with a position outside
the axis bounds never issues the move command — the axis controller raises
a validation error before any hardware action — but that error is caught
and logged inside `set_axis` rather than reaching the caller: the call
returns normally with the controller state exactly as before. -/
theorem qdlscan_set_axis_out_of_bounds_swallowed (env : ScanEnv)
    (st : ScanController) (axis : String) (ax : AxisConfig) (position : ℚ)
    (hidle : st.busy = false) (hax : env.axisConfig axis = some ax)
    (hoob : position < ax.min ∨ ax.max < position) :
    (ScanController.set_axis env st axis position).2 = none ∧
    (ScanController.set_axis env st axis position).1 = st := by
  have h1 : ({ st with busy := true } : ScanController).set_axis_internal axis ax position =
      Except.error "ValueError: requested position is out of range" := by
    unfold ScanController.set_axis_internal AxisConfig.go_to_position
    rw [if_pos hoob]
  have h2 : ScanController.set_axis env st axis position =
      ({ st with busy := false }, none) := by
    unfold ScanController.set_axis
    rw [hidle, hax]
    simp only [Bool.false_eq_true, if_false, h1]
  rw [h2]
  refine ⟨rfl, ?_⟩
  cases st
  simp_all

theorem qdlscan_set_axis_out_of_bounds_swallowed_witness :
    (scanControllerIdle.busy = false ∧
      scanEnvDemo.axisConfig "x" = some scanEnvDemo.x_axis ∧
      ((1000 : ℚ) < scanEnvDemo.x_axis.min ∨ scanEnvDemo.x_axis.max < 1000)) ∧
    (ScanController.set_axis scanEnvDemo scanControllerIdle "x" 1000).2 = none ∧
    (ScanController.set_axis scanEnvDemo scanControllerIdle "x" 1000).1 =
      scanControllerIdle := by
  have hb : scanControllerIdle.busy = false := rfl
  have hax : scanEnvDemo.axisConfig "x" = some scanEnvDemo.x_axis := rfl
  have hoob : (1000 : ℚ) < scanEnvDemo.x_axis.min ∨ scanEnvDemo.x_axis.max < 1000 := by
    right
    norm_num [scanEnvDemo]
  exact ⟨⟨hb, hax, hoob⟩,
    qdlscan_set_axis_out_of_bounds_swallowed scanEnvDemo scanControllerIdle "x"
      scanEnvDemo.x_axis 1000 hb hax hoob⟩

/-! ### Claim C5: stopping a raster scan after row r -/

theorem npLinspace_length (start stop : ℚ) (num : ℕ) :
    (npLinspace start stop num).length = num := by
  unfold npLinspace
  split_ifs <;> simp

theorem sample_batch_counts_preserves (env : ScanEnv) (st : ScanController) :
    (ScanController.sample_batch_counts env st).1.busy = st.busy ∧
    (ScanController.sample_batch_counts env st).1.scanning = st.scanning ∧
    (ScanController.sample_batch_counts env st).1.stop_scan = st.stop_scan ∧
    (ScanController.sample_batch_counts env st).1.counter_running = st.counter_running ∧
    (ScanController.sample_batch_counts env st).1.counter_start_calls = st.counter_start_calls ∧
    (ScanController.sample_batch_counts env st).1.counter_stop_calls = st.counter_stop_calls := by
  unfold ScanController.sample_batch_counts
  split_ifs <;> exact ⟨rfl, rfl, rfl, rfl, rfl, rfl⟩

theorem scan_loop_ok (env : ScanEnv) (axis : String) (ax : AxisConfig) :
    ∀ (positions : List ℚ) (st : ScanController),
      (∀ p ∈ positions, ¬(p < ax.min ∨ ax.max < p)) →
      ∃ st' out,
        ScanController.scan_loop env axis ax st positions = (st', Except.ok out) ∧
        st'.busy = st.busy ∧ st'.scanning = st.scanning ∧
        st'.stop_scan = st.stop_scan ∧
        st'.counter_running = st.counter_running ∧
        st'.counter_start_calls = st.counter_start_calls ∧
        st'.counter_stop_calls = st.counter_stop_calls ∧
        out.length = positions.length := by
  intro positions
  induction positions with
  | nil =>
      intro st _
      exact ⟨st, [], rfl, rfl, rfl, rfl, rfl, rfl, rfl, rfl⟩
  | cons p rest ih =>
      intro st h
      have hp : ¬(p < ax.min ∨ ax.max < p) := h p (List.mem_cons_self p rest)
      have hrest : ∀ q ∈ rest, ¬(q < ax.min ∨ ax.max < q) :=
        fun q hq => h q (List.mem_cons_of_mem p hq)
      have hmove : st.set_axis_internal axis ax p =
          Except.ok { st with moves := st.moves ++ [(axis, p)] } := by
        unfold ScanController.set_axis_internal AxisConfig.go_to_position
        rw [if_neg hp]
      obtain ⟨st3, out, heq, hb, hs, hss, hcr, hcst, hcsc, hlen⟩ :=
        ih (ScanController.sample_batch_counts env
              { st with moves := st.moves ++ [(axis, p)] }).1 hrest
      obtain ⟨pb, ps, pss, pcr, pcst, pcsc⟩ :=
        sample_batch_counts_preserves env { st with moves := st.moves ++ [(axis, p)] }
      refine ⟨st3,
        (ScanController.sample_batch_counts env
          { st with moves := st.moves ++ [(axis, p)] }).2 :: out, ?_, ?_, ?_, ?_, ?_, ?_, ?_, ?_⟩
      · unfold ScanController.scan_loop
        rw [hmove]
        simp only []
        rw [heq]
      · rw [hb, pb]
      · rw [hs, ps]
      · rw [hss, pss]
      · rw [hcr, pcr]
      · rw [hcst, pcst]
      · rw [hcsc, pcsc]
      · simp [hlen]

theorem scan_axis_internal_ok (env : ScanEnv) (st : ScanController) (axis : String)
    (ax : AxisConfig) (start stop : ℚ) (n_pixels : ℕ) (scan_time : ℚ)
    (h : ∀ p ∈ npLinspace start stop n_pixels, ¬(p < ax.min ∨ ax.max < p)) :
    ∃ st' out,
      ScanController.scan_axis_internal env st axis ax start stop n_pixels scan_time =
        (st', Except.ok out) ∧
      st'.busy = st.busy ∧ st'.stop_scan = st.stop_scan ∧
      st'.counter_running = st.counter_running ∧
      st'.counter_start_calls = st.counter_start_calls ∧
      st'.counter_stop_calls = st.counter_stop_calls ∧
      st'.scanning = false ∧ out.length = n_pixels := by
  obtain ⟨st2, out, heq, hb, hs, hss, hcr, hcst, hcsc, hlen⟩ :=
    scan_loop_ok env axis ax (npLinspace start stop n_pixels)
      { st with scanning := true, sample_time := scan_time / (n_pixels : ℚ) } h
  refine ⟨{ st2 with scanning := false }, out, ?_, hb, hss, hcr, hcst, hcsc, rfl, ?_⟩
  · unfold ScanController.scan_axis_internal
    dsimp only
    rw [heq]
  · rw [hlen, npLinspace_length]

theorem image_loop_stop_at (env : ScanEnv) (a1 : String) (ax1 : AxisConfig)
    (s1 e1 : ℚ) (np1 : ℕ) (t : ℚ) (a2 : String) (ax2 : AxisConfig)
    (stop_flag : ℕ → Bool) (r : ℕ)
    (hstop : ∀ k, stop_flag k = decide (r ≤ k + 1))
    (hb1 : ∀ p ∈ npLinspace s1 e1 np1, ¬(p < ax1.min ∨ ax1.max < p)) :
    ∀ (positions : List ℚ) (idx : ℕ) (st : ScanController),
      idx + 1 ≤ r → r - idx ≤ positions.length →
      (∀ p ∈ positions, ¬(p < ax2.min ∨ ax2.max < p)) →
      ∃ st' rows,
        ScanController.image_loop env a1 ax1 s1 e1 np1 t a2 ax2 stop_flag
            st idx positions = (st', rows, none) ∧
        rows.length = r - idx ∧ st'.busy = false ∧ st'.counter_running = false ∧
        st'.scanning = false ∧ st'.stop_scan = false ∧
        st'.counter_stop_calls = st.counter_stop_calls + 1 := by
  intro positions
  induction positions with
  | nil =>
      intro idx st hidx hlen _
      simp only [List.length_nil] at hlen
      omega
  | cons p rest ih =>
      intro idx st hidx hlen h2
      have hp : ¬(p < ax2.min ∨ ax2.max < p) := h2 p (List.mem_cons_self p rest)
      have hrest : ∀ q ∈ rest, ¬(q < ax2.min ∨ ax2.max < q) :=
        fun q hq => h2 q (List.mem_cons_of_mem p hq)
      have hmove : st.set_axis_internal a2 ax2 p =
          Except.ok { st with moves := st.moves ++ [(a2, p)] } := by
        unfold ScanController.set_axis_internal AxisConfig.go_to_position
        rw [if_neg hp]
      obtain ⟨st2, row, hscan, hb, hss, hcr, hcst, hcsc, hsc, hrowlen⟩ :=
        scan_axis_internal_ok env { st with moves := st.moves ++ [(a2, p)] }
          a1 ax1 s1 e1 np1 t hb1
      by_cases hr : r ≤ idx + 1
      · -- the stop flag is observed set right after this row: stop and end
        have hflag : stop_flag idx = true := by rw [hstop idx]; simpa using hr
        refine ⟨({ st2 with stop_scan := stop_flag idx } : ScanController).stop,
          [row], ?_, ?_, rfl, rfl, rfl, rfl, ?_⟩
        · unfold ScanController.image_loop
          rw [hmove]
          simp only []
          rw [hscan]
          simp only [hflag, if_true]
        · simp only [List.length_cons, List.length_nil]
          omega
        · unfold ScanController.stop ScanController.counter_stop
          simp only []
          rw [hcsc]
      · -- not yet at the stop row: continue with the rest
        have hflag : stop_flag idx = false := by
          rw [hstop idx]
          simpa using hr
        obtain ⟨st4, rows, hloop, hrows, b4, cr4, sc4, ss4, csc4⟩ :=
          ih (idx + 1) { st2 with stop_scan := false }
            (by omega) (by simp only [List.length_cons] at hlen; omega) hrest
        refine ⟨st4, row :: rows, ?_, ?_, b4, cr4, sc4, ss4, ?_⟩
        · unfold ScanController.image_loop
          rw [hmove]
          simp only []
          rw [hscan]
          simp only [hflag, Bool.false_eq_true, if_false]
          rw [hloop]
        · simp only [List.length_cons]
          omega
        · rw [csc4]
          have h5 : ({ st2 with stop_scan := false } : ScanController).counter_stop_calls
              = st2.counter_stop_calls := rfl
          rw [h5, hcsc]

/-- C5: if the external stop-request flag of a running `scan_image` raster
scan is set after row r of n (1 ≤ r < n) and iteration continues, the
sequence ends early with exactly r rows delivered (each row delivered once),
no error, `busy` false afterwards, and the counter's `stop()` invoked
exactly once. -/
theorem qdlscan_scan_image_stop_after_row (env : ScanEnv) (st0 : ScanController)
    (a1 : String) (s1 e1 : ℚ) (np1 : ℕ) (a2 : String) (s2 e2 : ℚ) (np2 : ℕ)
    (t : ℚ) (stop_flag : ℕ → Bool) (r : ℕ) (ax1 ax2 : AxisConfig)
    (hidle : st0.busy = false) (hcr0 : st0.counter_running = false)
    (ha1 : env.axisConfig a1 = some ax1) (ha2 : env.axisConfig a2 = some ax2)
    (hb1 : ∀ p ∈ npLinspace s1 e1 np1, ¬(p < ax1.min ∨ ax1.max < p))
    (hb2 : ∀ p ∈ npLinspace s2 e2 np2, ¬(p < ax2.min ∨ ax2.max < p))
    (hstop : ∀ k, stop_flag k = decide (r ≤ k + 1))
    (hr : 1 ≤ r) (hrn : r < np2) :
    ∃ st' rows,
      ScanController.scan_image env st0 a1 s1 e1 np1 a2 s2 e2 np2 t stop_flag =
        (st', rows, none) ∧
      rows.length = r ∧ st'.busy = false ∧ st'.counter_running = false ∧
      st'.counter_stop_calls = st0.counter_stop_calls + 1 := by
  have hstart : ({ st0 with busy := true } : ScanController).counter_start =
      { st0 with
        busy := true
        counter_running := true
        counter_start_calls := st0.counter_start_calls + 1 } := by
    unfold ScanController.counter_start
    simp only [hcr0, Bool.false_eq_true, if_false]
  obtain ⟨st', rows, hloop, hrows, hb, hcr, _, _, hcsc⟩ :=
    image_loop_stop_at env a1 ax1 s1 e1 np1 t a2 ax2 stop_flag r hstop hb1
      (npLinspace s2 e2 np2) 0
      { st0 with
        busy := true
        counter_running := true
        counter_start_calls := st0.counter_start_calls + 1 }
      (by omega) (by rw [npLinspace_length]; omega) hb2
  refine ⟨st', rows, ?_, by simpa using hrows, hb, hcr, by simpa using hcsc⟩
  unfold ScanController.scan_image
  rw [hidle]
  simp only [Bool.false_eq_true, if_false]
  rw [ha1, ha2]
  simp only []
  rw [hstart]
  exact hloop

theorem qdlscan_scan_image_stop_after_row_witness :
    (scanControllerIdle.busy = false ∧ (1 : ℕ) ≤ 2 ∧ (2 : ℕ) < 5) ∧
    (∃ st' rows,
      ScanController.scan_image scanEnvDemo scanControllerIdle "x" 0 1 2 "y" 0 4 5 1
          (fun k : ℕ => decide (2 ≤ k + 1)) = (st', rows, none) ∧
      rows.length = 2 ∧ st'.busy = false ∧ st'.counter_running = false ∧
      st'.counter_stop_calls = scanControllerIdle.counter_stop_calls + 1) := by
  have hlin1 : npLinspace 0 1 2 = [0, 1] := by
    norm_num [npLinspace, List.range_succ]
  have hlin2 : npLinspace 0 4 5 = [0, 1, 2, 3, 4] := by
    norm_num [npLinspace, List.range_succ]
  have hb1 : ∀ p ∈ npLinspace 0 1 2,
      ¬(p < scanEnvDemo.x_axis.min ∨ scanEnvDemo.x_axis.max < p) := by
    simp only [hlin1]
    intro p hp
    simp only [List.mem_cons, List.not_mem_nil, or_false] at hp
    rcases hp with h | h <;> subst h <;> norm_num [scanEnvDemo]
  have hb2 : ∀ p ∈ npLinspace 0 4 5,
      ¬(p < scanEnvDemo.y_axis.min ∨ scanEnvDemo.y_axis.max < p) := by
    simp only [hlin2]
    intro p hp
    simp only [List.mem_cons, List.not_mem_nil, or_false] at hp
    rcases hp with h | h | h | h | h <;> subst h <;> norm_num [scanEnvDemo]
  refine ⟨⟨rfl, by norm_num, by norm_num⟩, ?_⟩
  exact qdlscan_scan_image_stop_after_row scanEnvDemo scanControllerIdle
    "x" 0 1 2 "y" 0 4 5 1 (fun k : ℕ => decide (2 ≤ k + 1)) 2
    scanEnvDemo.x_axis scanEnvDemo.y_axis rfl rfl rfl rfl hb1 hb2
    (fun _ => rfl) (by norm_num) (by norm_num)

end QdlUtils
